import Mathlib

/-!
Shallow embedding of `act/qc/arm.py` (function `add_dqr_to_qc`) from the ACT
repository, together with proofs about its behaviour.

Modelling conventions:
* Timestamps are modelled as epoch seconds (`Int`).  The source converts a
  record's epoch-second fields with
  `np.datetime64(dt.datetime.utcfromtimestamp(int(...)))`; since that
  conversion is strictly monotone and injective, comparisons between
  converted timestamps coincide with comparisons between the underlying
  epoch seconds, so the dataset's time coordinate is a `List Int` of epoch
  seconds and the conversion is the identity.
* A numeric array cell is `Val`: either a number or NaN, with IEEE
  self-equality semantics (`NaN == NaN` is false, `isnan NaN` is true).
* Side effects (the HTTP GET, console printing, the `clean.cleanup()` pass,
  `qcfilter.add_test` registration and `clean.normalize_assessment`) are
  recorded in an event trace; the dataset value itself is returned
  unchanged, its quality-control mutations being captured by the
  `Event.cleanup` / `Event.addTest` / `Event.normalize` events.
* Python exceptions are modelled with `Except DQRError`; an aborted call
  returns `Except.error` together with the events emitted before the abort.
-/

set_option autoImplicit false

namespace ActArm

/-- A numeric array cell: a number or NaN (IEEE semantics for the
`(values == values) | np.isnan(values)` mask in the source). -/
inductive Val where
  | num (q : Int)
  | nan
deriving DecidableEq

/-- IEEE self-equality: `x == x` is true for numbers, false for NaN. -/
def valEqSelf : Val → Bool
  | .num _ => true
  | .nan => false

/-- The `np.isnan` predicate on a cell. -/
def valIsNan : Val → Bool
  | .num _ => false
  | .nan => true

/-- A data variable: whether `'time'` is among its dims, and its cells
(1-D, as in every configuration the claims exercise). -/
structure Variable where
  hasTimeDim : Bool
  values : List Val
deriving DecidableEq

/-- A quality-control test as registered through `ds.qcfilter.add_test`. -/
structure QCTest where
  var_name : String
  index : List Nat
  test_meaning : String
  test_assessment : String
deriving DecidableEq

/-- The xarray dataset, restricted to what `add_dqr_to_qc` reads: the two
datastream attribute variants, the optional `'time'` coordinate (epoch
seconds), the data variables, and the names reported by
`ds.clean.matched_qc_variables`. -/
structure Dataset where
  attr_datastream : Option String
  attr_underscore_datastream : Option String
  time? : Option (List Int)
  data_vars : List (String × Variable)
  matched_qc_variables : List String
deriving DecidableEq

/-- A parsed response line: the source splits each line on `'|'` into
fields `[dqrid, starttime, endtime, metric, ..., subject]`, reading
`line[0]`, `int(line[1])`, `int(line[2])`, `line[3]` and `line[-1]`. -/
structure DQRLine where
  dqr_no : String
  starttime : Int
  endtime : Int
  metric : String
  subject : String
deriving DecidableEq

/-- The web service's HTTP response: status code and the parsed lines of
`req.text.splitlines()`. -/
structure HttpResponse where
  status_code : Nat
  lines : List DQRLine

/-- An aggregated record of `dqr_results` in the source: one entry per
report id, per variable. -/
structure DQRResult where
  index : List Nat
  test_assessment : String
  test_meaning : String
deriving DecidableEq

/-- Observable side effects of the call, in order of occurrence. -/
inductive Event where
  | cleanup
  | request (url : String)
  | printLink (dqr_no : String) (metric : String) (url : String)
  | addTest (t : QCTest)
  | skipNotice (var_name : String)
  | normalize (var_name : String)
deriving DecidableEq

/-- Python exceptions the function can raise. -/
inductive DQRError where
  | valueError (msg : String)
  | keyError (key : String)
deriving DecidableEq

/-- Modelled from the spec: `DEFAULT_DATASTREAM_NAME` is imported from
`act.config` (not under `src/`); the spec calls it "the reserved default
placeholder" for an unset identifying name. Its concrete string value is
irrelevant to every claim. -/
def DEFAULT_DATASTREAM_NAME : String := "act_datastream"

/-- The external world: the web service (a response for each URL) and,
modelled from the spec, an oracle saying whether the host subsystem's
`ds.qcfilter.add_test` raises an `IndexError` when registering the record
of a given report id on a given variable ("raising an index-related
failure on invalid indices" is host-library behaviour, not code under
`src/`). -/
structure World where
  service : String → HttpResponse
  addTestFails : String → String → Bool

/-- The keyword arguments of `add_dqr_to_qc`. -/
structure Config where
  variables? : Option (List String)
  assessment : String
  exclude : Option (List String)
  includeIds : Option (List String)
  normalize_assessment : Bool
  cleanup_qc : Bool
  dqr_link : Bool
  skip_location_vars : Bool

/-- The fixed location-variable names of the source. -/
def loc_vars : List String :=
  ["lat", "lon", "alt", "latitude", "longitude", "altitude"]

/-- URL construction by string concatenation, as in the source. -/
def buildURL (datastream var_name assessment : String) : String :=
  "http://www.archive.arm.gov/dqrws/ARMDQR?datastream=" ++ datastream
    ++ "&varname=" ++ var_name
    ++ "&searchmetric=" ++ assessment
    ++ "&dqrfields=dqrid,starttime,endtime,metric,subject"

/-- Base of the per-report link printed when `dqr_link` is set. -/
def reportURL (dqr_no : String) : String :=
  "https://adc.arm.gov/ArchiveServices/DQRService?dqrid=" ++ dqr_no

/-- The test `exclude is not None and dqr_no in exclude`. -/
def excludeHit (exclude : Option (List String)) (dqr_no : String) : Bool :=
  match exclude with
  | some l => l.contains dqr_no
  | none => false

/-- The test `include is not None and dqr_no not in include`. -/
def includeMiss (includeIds : Option (List String)) (dqr_no : String) : Bool :=
  match includeIds with
  | some l => !(l.contains dqr_no)
  | none => false

/-- Positions of `np.where((time >= starttime) & (time <= endtime))` over
the 1-D time coordinate. -/
def computeTimeInd (time : List Int) (starttime endtime : Int) : List Nat :=
  (List.range time.length).filter fun i =>
    decide (starttime ≤ time.getD i 0) && decide (time.getD i 0 ≤ endtime)

/-- Positions of
`np.where((values == values) | (np.isnan(values)))` over the variable's
cells (the whole-array mask used when the variable has no time dimension;
the `np.size(ind) == 1` unwrap in the source changes the container shape,
not the selected positions). -/
def noTimeDimInd (vals : List Val) : List Nat :=
  (List.range vals.length).filter fun i =>
    valEqSelf (vals.getD i .nan) || valIsNan (vals.getD i .nan)

/-- Dictionary lookup `dqr_no in dqr_results.keys()` / `dqr_results[dqr_no]`,
on the insertion-ordered association list modelling the Python dict. -/
def lookupResult (results : List (String × DQRResult)) (k : String) :
    Option DQRResult :=
  (results.find? fun p => p.1 == k).map Prod.snd

/-- Dictionary update `dqr_results[dqr_no] = v` for a key already present. -/
def updateResult (results : List (String × DQRResult)) (k : String)
    (v : DQRResult) : List (String × DQRResult) :=
  results.map fun p => if p.1 == k then (p.1, v) else p

/-- One iteration of the `for line in dqrs` loop (source lines 142–176):
exclude/include filtering, time-index computation, empty-index skip,
no-time-dimension override, and the merge into `dqr_results`, together
with the optional first-occurrence link printing. -/
def processLine (exclude includeIds : Option (List String)) (time : List Int)
    (var : Variable) (dqr_link : Bool)
    (acc : List (String × DQRResult) × List Event) (line : DQRLine) :
    List (String × DQRResult) × List Event :=
  let dqr_no := line.dqr_no
  if excludeHit exclude dqr_no then acc
  else if includeMiss includeIds dqr_no then acc
  else
    let ind := computeTimeInd time line.starttime line.endtime
    if ind.length = 0 then acc
    else
      let ind := if var.hasTimeDim then ind else noTimeDimInd var.values
      match lookupResult acc.1 dqr_no with
      | some r =>
        (updateResult acc.1 dqr_no { r with index := r.index ++ ind }, acc.2)
      | none =>
        let newR : DQRResult :=
          { index := ind
            test_assessment := line.metric
            test_meaning := dqr_no ++ ": " ++ line.subject }
        let linkEvents :=
          if dqr_link then [Event.printLink dqr_no line.metric (reportURL dqr_no)]
          else []
        (acc.1 ++ [(dqr_no, newR)], acc.2 ++ linkEvents)

/-- The whole `for line in dqrs` loop, starting from an empty
`dqr_results = {}`. -/
def processLines (exclude includeIds : Option (List String)) (time : List Int)
    (var : Variable) (dqr_link : Bool) (dqrs : List DQRLine) :
    List (String × DQRResult) × List Event :=
  dqrs.foldl (processLine exclude includeIds time var dqr_link) ([], [])

/-- The `for key, value in dqr_results.items()` registration loop (source
lines 177–186): each aggregated record is registered via
`ds.qcfilter.add_test`; an `IndexError` (per the `World` oracle) is caught
and turned into the printed skip notice. -/
def registerResults (fails : String → String → Bool) (var_name : String)
    (results : List (String × DQRResult)) : List Event :=
  results.map fun p =>
    if fails var_name p.1 then Event.skipNotice var_name
    else
      Event.addTest
        { var_name := var_name
          index := p.2.index
          test_meaning := p.2.test_meaning
          test_assessment := p.2.test_assessment }

/-- Remainder of one per-variable iteration once the status checks have
passed (source lines 139–189): reading `ds['time'].values`, the line
loop, the registration loop and the optional assessment normalization.
It never inspects the response status.  The source reads `ds[var_name]`
for the first time inside the line loop (line 161); since the variable
name and dataset are fixed across that loop, the lookup is hoisted before
it, which is observationally identical whenever `var_name` names a
variable of the dataset (every situation the claims exercise). -/
def processVariableAfterStatus (w : World) (cfg : Config) (ds : Dataset)
    (var_name url : String) (dqrs : List DQRLine) :
    List Event × Except DQRError Unit :=
  match ds.time? with
  | none => ([Event.request url], Except.error (DQRError.keyError "time"))
  | some time =>
    match (ds.data_vars.find? fun p => p.1 == var_name).map Prod.snd with
    | none => ([Event.request url], Except.error (DQRError.keyError var_name))
    | some var =>
      let res := processLines cfg.exclude cfg.includeIds time var
        cfg.dqr_link dqrs
      let regEvents := registerResults w.addTestFails var_name res.1
      let normEvents :=
        if cfg.normalize_assessment then [Event.normalize var_name] else []
      (Event.request url :: (res.2 ++ regEvents ++ normEvents), Except.ok ())

/-- One iteration of the per-variable loop (source lines 112–189): the
location-variable skip, URL construction, the GET, the 400/500 status
checks, then `processVariableAfterStatus`. -/
def processVariable (w : World) (cfg : Config) (ds : Dataset)
    (datastream var_name : String) : List Event × Except DQRError Unit :=
  if cfg.skip_location_vars && loc_vars.contains var_name then ([], Except.ok ())
  else
    let url := buildURL datastream var_name cfg.assessment
    let req := w.service url
    if req.status_code = 400 then
      ([Event.request url], Except.error (DQRError.valueError "Check parameters"))
    else if req.status_code = 500 then
      ([Event.request url],
        Except.error (DQRError.valueError "DQR Webservice Temporarily Down"))
    else processVariableAfterStatus w cfg ds var_name url req.lines

/-- The per-variable loop over the whole variable list, aborting at the
first uncaught exception and keeping the events emitted up to that point. -/
def processVars (w : World) (cfg : Config) (ds : Dataset)
    (datastream : String) : List String → List Event × Except DQRError Unit
  | [] => ([], Except.ok ())
  | v :: rest =>
    match processVariable w cfg ds datastream v with
    | (evs, Except.error e) => (evs, Except.error e)
    | (evs, Except.ok ()) =>
      let r := processVars w cfg ds datastream rest
      (evs ++ r.1, r.2)

/-- The attribute resolution of source lines 87–92: `'datastream'` first,
then `'_datastream'`, else `ValueError`. -/
def resolveDatastream (ds : Dataset) : Except DQRError String :=
  match ds.attr_datastream with
  | some d => Except.ok d
  | none =>
    match ds.attr_underscore_datastream with
    | some d => Except.ok d
    | none => Except.error (DQRError.valueError "Dataset does not have datastream attribute")

/-- The `variable is None` default of source line 104:
`list(set(ds.data_vars) - set(ds.clean.matched_qc_variables))`.  Python's
set difference enumerates in unspecified order; the model fixes dataset
order, on which no claim depends. -/
def defaultVariables (ds : Dataset) : List String :=
  (ds.data_vars.map Prod.fst).filter fun n => !(ds.matched_qc_variables.contains n)

/-- The variable list actually looped over: the `variable` argument when
given, the default otherwise (the singleton-wrapping of a lone string on
source lines 107–108 is the `some [v]` case). -/
def effectiveVariables (cfg : Config) (ds : Dataset) : List String :=
  match cfg.variables? with
  | some vs => vs
  | none => defaultVariables ds

/-- The whole of `add_dqr_to_qc`: datastream resolution and placeholder
check, optional `clean.cleanup()`, variable-list defaulting, and the
per-variable loop.  Returns the event trace and either the (by-reference)
dataset or the uncaught exception. -/
def add_dqr_to_qc (w : World) (cfg : Config) (ds : Dataset) :
    List Event × Except DQRError Dataset :=
  match resolveDatastream ds with
  | Except.error e => ([], Except.error e)
  | Except.ok datastream =>
    if datastream = DEFAULT_DATASTREAM_NAME then
      ([],
        Except.error (DQRError.valueError
          ("'datastream' name required for DQR service set to default value "
            ++ datastream ++ ". Unable to perform DQR service query.")))
    else
      let cleanupEvents := if cfg.cleanup_qc then [Event.cleanup] else []
      let r := processVars w cfg ds datastream (effectiveVariables cfg ds)
      (cleanupEvents ++ r.1,
        match r.2 with
        | Except.ok () => Except.ok ds
        | Except.error e => Except.error e)

/-! ### Helper lemmas -/

/-- Every cell satisfies the whole-array mask `(x == x) | isnan(x)`. -/
theorem valEqSelf_or_isNan (v : Val) : (valEqSelf v || valIsNan v) = true := by
  cases v <;> rfl

/-- The whole-array mask of the no-time-dimension branch selects every
position of the variable. -/
theorem noTimeDimInd_eq_range (vals : List Val) :
    noTimeDimInd vals = List.range vals.length := by
  unfold noTimeDimInd
  exact List.filter_eq_self.mpr fun a _ => valEqSelf_or_isNan _

/-! ### Sample fixtures used by witnesses and concrete runs -/

/-- A service response with no lines and status 200. -/
def emptyResponse : HttpResponse := { status_code := 200, lines := [] }

/-- A world whose service always answers 200 with no lines and whose
registrations never fail. -/
def wOk : World :=
  { service := fun _ => emptyResponse, addTestFails := fun _ _ => false }

/-- Baseline keyword arguments (the source's defaults, with
`variable=['temp']`). -/
def cfgBase : Config :=
  { variables? := some ["temp"], assessment := "incorrect,suspect",
    exclude := none, includeIds := none, normalize_assessment := true,
    cleanup_qc := true, dqr_link := false, skip_location_vars := false }

/-- A dataset carrying neither datastream attribute variant. -/
def dsNoAttrs : Dataset :=
  { attr_datastream := none, attr_underscore_datastream := none,
    time? := some [0], data_vars := [], matched_qc_variables := [] }

/-- A four-sample time coordinate. -/
def sampleTime : List Int := [0, 10, 20, 30]

/-- A time-dimensioned variable with four cells. -/
def sampleVar : Variable :=
  { hasTimeDim := true, values := [.num 1, .num 2, .num 3, .num 4] }

/-- A report line with id `D1` covering samples 1 and 2 of `sampleTime`. -/
def lineD1 : DQRLine :=
  { dqr_no := "D1", starttime := 5, endtime := 25, metric := "incorrect",
    subject := "bad" }

/-- A report line with id `D2` covering samples 0 and 1 of `sampleTime`. -/
def lineD2 : DQRLine :=
  { dqr_no := "D2", starttime := 0, endtime := 10, metric := "suspect",
    subject := "sus" }

/-- A report line whose range misses `sampleTime` entirely. -/
def lineD9 : DQRLine :=
  { dqr_no := "D9", starttime := 100, endtime := 200, metric := "incorrect",
    subject := "late" }

/-- The test that registering `lineD1` on `"temp"` produces. -/
def testD1 : QCTest :=
  { var_name := "temp", index := [1, 2], test_meaning := "D1: bad",
    test_assessment := "incorrect" }

/-- A variable without a time dimension, holding a number and a NaN. -/
def pctVar : Variable := { hasTimeDim := false, values := [.num 5, .nan] }

/-- A dataset holding the no-time-dimension variable `pct` and a
one-sample time coordinate at epoch 100. -/
def dsPct : Dataset :=
  { attr_datastream := some "sgpmetE13.b1", attr_underscore_datastream := none,
    time? := some [100], data_vars := [("pct", pctVar)],
    matched_qc_variables := [] }

/-- Keyword arguments for the `pct` runs, with cleanup and normalization
off so the event trace stays minimal. -/
def cfgPct : Config :=
  { variables? := some ["pct"], assessment := "incorrect,suspect",
    exclude := none, includeIds := none, normalize_assessment := false,
    cleanup_qc := false, dqr_link := false, skip_location_vars := false }

/-- A world whose service answers every query with status 200 and the
single record `lineD2` (whose range `[0, 10]` misses epoch 100). -/
def wPctMiss : World :=
  { service := fun _ => { status_code := 200, lines := [lineD2] },
    addTestFails := fun _ _ => false }

/-- A second `D1` line covering sample 3 of `sampleTime`. -/
def lineD1b : DQRLine :=
  { dqr_no := "D1", starttime := 28, endtime := 35, metric := "incorrect",
    subject := "also bad" }

/-- A report line whose range `[90, 110]` covers epoch 100. -/
def lineD8 : DQRLine :=
  { dqr_no := "D8", starttime := 90, endtime := 110, metric := "incorrect",
    subject := "drift" }

/-- A dataset holding the time-dimensioned variable `temp` over
`sampleTime`. -/
def dsTemp : Dataset :=
  { attr_datastream := some "sgpmetE13.b1", attr_underscore_datastream := none,
    time? := some sampleTime, data_vars := [("temp", sampleVar)],
    matched_qc_variables := [] }

/-- A world whose service always answers status 404 with an empty body. -/
def w404 : World :=
  { service := fun _ => { status_code := 404, lines := [] },
    addTestFails := fun _ _ => false }

/-- Appending a fresh key to the aggregation dictionary makes it
retrievable. -/
theorem lookupResult_append_self (results : List (String × DQRResult))
    (k : String) (v : DQRResult) (h : lookupResult results k = none) :
    lookupResult (results ++ [(k, v)]) k = some v := by
  unfold lookupResult at h ⊢
  rw [List.find?_append]
  rcases hfind : List.find? (fun p => p.1 == k) results with _ | p
  · rw [hfind, Option.none_or]
    simp [List.find?_cons]
  · rw [hfind] at h
    simp at h

/-! ### Claims -/

/-- C4: for every record, the computed index set over a time-dimensioned
variable consists exactly of the positions of the dataset's time
coordinate whose timestamp lies in the record's `[start, end]` range,
both endpoints included; start and end are the record's epoch-second
fields (whose conversion to timestamps the model takes as the identity,
the source's conversion being strictly monotone). -/
theorem time_index_membership (time : List Int) (starttime endtime : Int) (i : Nat) :
    i ∈ computeTimeInd time starttime endtime ↔
      ∃ h : i < time.length,
        starttime ≤ time.get ⟨i, h⟩ ∧ time.get ⟨i, h⟩ ≤ endtime := by
  unfold computeTimeInd
  rw [List.mem_filter, List.mem_range]
  constructor
  · rintro ⟨hi, hp⟩
    rw [Bool.and_eq_true, decide_eq_true_iff, decide_eq_true_iff] at hp
    rw [List.getD_eq_getElem time 0 hi] at hp
    exact ⟨hi, hp⟩
  · rintro ⟨hi, h1, h2⟩
    refine ⟨hi, ?_⟩
    rw [Bool.and_eq_true, decide_eq_true_iff, decide_eq_true_iff]
    rw [List.getD_eq_getElem time 0 hi]
    exact ⟨h1, h2⟩

/-- C7: a record passing the exclude/include filters whose time range
does not intersect the time coordinate is dropped silently: it leaves the
aggregation state and the event trace unchanged (no registration, no
printing, no error), and the line loop continues exactly as if the record
were absent. -/
theorem nonintersecting_record_dropped (exclude includeIds : Option (List String))
    (time : List Int) (var : Variable) (dl : Bool) (l : DQRLine)
    (hex : excludeHit exclude l.dqr_no = false)
    (hin : includeMiss includeIds l.dqr_no = false)
    (hempty : computeTimeInd time l.starttime l.endtime = []) :
    (∀ acc, processLine exclude includeIds time var dl acc l = acc) ∧
    ∀ pre post,
      processLines exclude includeIds time var dl (pre ++ l :: post) =
        processLines exclude includeIds time var dl (pre ++ post) := by
  have hstep : ∀ acc, processLine exclude includeIds time var dl acc l = acc := by
    intro acc
    simp [processLine, hex, hin, hempty]
  refine ⟨hstep, ?_⟩
  intro pre post
  unfold processLines
  rw [List.foldl_append, List.foldl_append, List.foldl_cons, hstep]

/-- C7 witness: a concrete record missing the sample time coordinate is a
no-op on the empty aggregation state. -/
theorem nonintersecting_record_dropped_witness :
    processLine none none sampleTime sampleVar false ([], []) lineD9 = ([], []) :=
  (nonintersecting_record_dropped none none sampleTime sampleVar false lineD9
    rfl rfl (by decide)).1 ([], [])

/-- C6: a record whose id is in the exclude list is skipped before any
merge, whatever the include list says (so exclusion takes precedence);
otherwise a record whose id misses a given include list is skipped; and
concretely, `exclude=["D1"]` registers no test for a response containing
`D1`, while `include=["D1"]` on a response containing `D1` and `D2`
registers exactly the `D1` test. -/
theorem exclude_include_filtering :
    (∀ (excl : List String) (includeIds : Option (List String)) (time : List Int)
        (var : Variable) (dl : Bool) (acc : List (String × DQRResult) × List Event)
        (l : DQRLine), excl.contains l.dqr_no = true →
        processLine (some excl) includeIds time var dl acc l = acc) ∧
    (∀ (exclude : Option (List String)) (incl : List String) (time : List Int)
        (var : Variable) (dl : Bool) (acc : List (String × DQRResult) × List Event)
        (l : DQRLine), excludeHit exclude l.dqr_no = false →
        incl.contains l.dqr_no = false →
        processLine exclude (some incl) time var dl acc l = acc) ∧
    registerResults (fun _ _ => false) "temp"
        (processLines (some ["D1"]) none sampleTime sampleVar false [lineD1]).1 = [] ∧
    registerResults (fun _ _ => false) "temp"
        (processLines none (some ["D1"]) sampleTime sampleVar false [lineD1, lineD2]).1 =
      [Event.addTest testD1] := by
  refine ⟨?_, ?_, rfl, rfl⟩
  · intro excl includeIds time var dl acc l h
    have h' : l.dqr_no ∈ excl := by simpa using h
    simp [processLine, excludeHit, h']
  · intro exclude incl time var dl acc l hex hin
    have hin' : l.dqr_no ∉ incl := by simpa using hin
    simp [processLine, includeMiss, hex, hin']

/-- C6 witness: a record whose id sits in both lists is dropped by the
exclusion check. -/
theorem exclude_include_filtering_witness :
    processLine (some ["D1"]) (some ["D1"]) sampleTime sampleVar false ([], []) lineD1 =
      ([], []) :=
  exclude_include_filtering.1 ["D1"] (some ["D1"]) sampleTime sampleVar false
    ([], []) lineD1 (by decide)

/-- C5: a dataset with neither datastream attribute variant, or whose
resolved datastream equals the reserved default placeholder, makes the
call raise a `ValueError` with an empty event trace: before any network
request, before `clean.cleanup()` and before any quality-control
mutation. -/
theorem missing_datastream_fails_early (w : World) (cfg : Config) (ds : Dataset)
    (h : (ds.attr_datastream = none ∧ ds.attr_underscore_datastream = none) ∨
      resolveDatastream ds = Except.ok DEFAULT_DATASTREAM_NAME) :
    ∃ msg, add_dqr_to_qc w cfg ds = ([], Except.error (DQRError.valueError msg)) := by
  rcases h with ⟨h1, h2⟩ | h
  · refine ⟨"Dataset does not have datastream attribute", ?_⟩
    simp [add_dqr_to_qc, resolveDatastream, h1, h2]
  · refine ⟨"'datastream' name required for DQR service set to default value "
      ++ DEFAULT_DATASTREAM_NAME ++ ". Unable to perform DQR service query.", ?_⟩
    simp [add_dqr_to_qc, h]

/-- C5 witness: the attribute-free dataset aborts with an empty trace. -/
theorem missing_datastream_fails_early_witness :
    ∃ msg, add_dqr_to_qc wOk cfgBase dsNoAttrs =
      ([], Except.error (DQRError.valueError msg)) :=
  missing_datastream_fails_early wOk cfgBase dsNoAttrs (Or.inl ⟨rfl, rfl⟩)

/-- C1: two response lines sharing a report id, both passing the filters
and both intersecting the time coordinate of a time-dimensioned variable,
merge into one aggregated record whose index set is the union of the two
ranges' positions, and that set is the same for either order of the two
lines. -/
theorem add_dqr_merge_union (exclude includeIds : Option (List String))
    (time : List Int) (var : Variable) (dl : Bool) (l1 l2 : DQRLine)
    (hid : l2.dqr_no = l1.dqr_no)
    (hex : excludeHit exclude l1.dqr_no = false)
    (hin : includeMiss includeIds l1.dqr_no = false)
    (htd : var.hasTimeDim = true)
    (h1 : computeTimeInd time l1.starttime l1.endtime ≠ [])
    (h2 : computeTimeInd time l2.starttime l2.endtime ≠ []) :
    ∃ r r' : DQRResult,
      lookupResult (processLines exclude includeIds time var dl [l1, l2]).1
          l1.dqr_no = some r ∧
      lookupResult (processLines exclude includeIds time var dl [l2, l1]).1
          l1.dqr_no = some r' ∧
      r.index.toFinset =
        (computeTimeInd time l1.starttime l1.endtime).toFinset ∪
          (computeTimeInd time l2.starttime l2.endtime).toFinset ∧
      r'.index.toFinset = r.index.toFinset := by
  have key : ∀ la lb : DQRLine, la.dqr_no = l1.dqr_no → lb.dqr_no = l1.dqr_no →
      computeTimeInd time la.starttime la.endtime ≠ [] →
      computeTimeInd time lb.starttime lb.endtime ≠ [] →
      lookupResult (processLines exclude includeIds time var dl [la, lb]).1
          l1.dqr_no =
        some { index := computeTimeInd time la.starttime la.endtime ++
                 computeTimeInd time lb.starttime lb.endtime,
               test_assessment := la.metric,
               test_meaning := la.dqr_no ++ ": " ++ la.subject } := by
    intro la lb ha hb hna hnb
    simp [processLines, processLine, ha, hb, hex, hin, htd, hna, hnb,
      List.length_eq_zero, lookupResult, updateResult]
  refine ⟨_, _, key l1 l2 rfl hid h1 h2, key l2 l1 hid rfl h2 h1, ?_, ?_⟩
  · exact List.toFinset_append
  · simp [List.toFinset_append, Finset.union_comm]

/-- C1 witness: the two concrete `D1` lines merge to the index-set union
`{1, 2, 3}` in either order. -/
theorem add_dqr_merge_union_witness :
    ∃ r r' : DQRResult,
      lookupResult (processLines none none sampleTime sampleVar false
          [lineD1, lineD1b]).1 "D1" = some r ∧
      lookupResult (processLines none none sampleTime sampleVar false
          [lineD1b, lineD1]).1 "D1" = some r' ∧
      r.index.toFinset =
        (computeTimeInd sampleTime lineD1.starttime lineD1.endtime).toFinset ∪
          (computeTimeInd sampleTime lineD1b.starttime lineD1b.endtime).toFinset ∧
      r'.index.toFinset = r.index.toFinset :=
  add_dqr_merge_union none none sampleTime sampleVar false lineD1 lineD1b
    rfl rfl rfl rfl (by decide) (by decide)

/-- C2 counterexample: on the no-time-dimension variable `pct`, the
record `lineD2` passes the (absent) filters yet its range misses the
time coordinate, so the call registers no test at all: the trace holds
only the network request. -/
theorem no_time_dim_record_skipped_cex :
    add_dqr_to_qc wPctMiss cfgPct dsPct =
      ([Event.request (buildURL "sgpmetE13.b1" "pct" "incorrect,suspect")],
        Except.ok dsPct) := rfl

/-- C2 amended: for a variable without a time dimension, a record that
passes the filters and whose range does intersect the time coordinate is
aggregated (on first occurrence) with an index set covering all of the
variable's positions. -/
theorem no_time_dim_all_positions (exclude includeIds : Option (List String))
    (time : List Int) (var : Variable) (dl : Bool)
    (results : List (String × DQRResult)) (events : List Event) (l : DQRLine)
    (htd : var.hasTimeDim = false)
    (hex : excludeHit exclude l.dqr_no = false)
    (hin : includeMiss includeIds l.dqr_no = false)
    (h1 : computeTimeInd time l.starttime l.endtime ≠ [])
    (hnew : lookupResult results l.dqr_no = none) :
    lookupResult
        (processLine exclude includeIds time var dl (results, events) l).1
        l.dqr_no =
      some { index := List.range var.values.length,
             test_assessment := l.metric,
             test_meaning := l.dqr_no ++ ": " ++ l.subject } := by
  have step :
      (processLine exclude includeIds time var dl (results, events) l).1 =
        results ++ [(l.dqr_no,
          { index := List.range var.values.length,
            test_assessment := l.metric,
            test_meaning := l.dqr_no ++ ": " ++ l.subject })] := by
    simp [processLine, hex, hin, htd, h1, List.length_eq_zero, hnew,
      noTimeDimInd_eq_range]
  rw [step]
  exact lookupResult_append_self results l.dqr_no _ hnew

/-- C2 witness: `lineD8` over the one-sample coordinate `[100]` flags both
positions of `pct`. -/
theorem no_time_dim_all_positions_witness :
    lookupResult (processLine none none [100] pctVar false ([], []) lineD8).1
        "D8" =
      some { index := [0, 1], test_assessment := "incorrect",
             test_meaning := "D8: drift" } :=
  no_time_dim_all_positions none none [100] pctVar false [] [] lineD8
    rfl rfl rfl (by decide) rfl

/-- C3 counterexample: a 404 response — a non-2xx status — does not make
the call fail: it completes and returns the dataset. -/
theorem status_404_no_error_cex :
    (add_dqr_to_qc w404 cfgBase dsTemp).2 = Except.ok dsTemp := rfl

/-- C3 amended: for a variable that is not skipped, status 400 aborts
with the parameter error and status 500 with the service-unavailable
error; every other status code — success or not — is not checked: the
call proceeds to the post-status body, which never inspects the status. -/
theorem status_code_handling (w : World) (cfg : Config) (ds : Dataset)
    (datastream var_name : String)
    (hns : (cfg.skip_location_vars && loc_vars.contains var_name) = false) :
    ((w.service (buildURL datastream var_name cfg.assessment)).status_code = 400 →
      processVariable w cfg ds datastream var_name =
        ([Event.request (buildURL datastream var_name cfg.assessment)],
          Except.error (DQRError.valueError "Check parameters"))) ∧
    ((w.service (buildURL datastream var_name cfg.assessment)).status_code = 500 →
      processVariable w cfg ds datastream var_name =
        ([Event.request (buildURL datastream var_name cfg.assessment)],
          Except.error (DQRError.valueError "DQR Webservice Temporarily Down"))) ∧
    ((w.service (buildURL datastream var_name cfg.assessment)).status_code ≠ 400 →
      (w.service (buildURL datastream var_name cfg.assessment)).status_code ≠ 500 →
      processVariable w cfg ds datastream var_name =
        processVariableAfterStatus w cfg ds var_name
          (buildURL datastream var_name cfg.assessment)
          (w.service (buildURL datastream var_name cfg.assessment)).lines) := by
  refine ⟨?_, ?_, ?_⟩
  · intro h
    unfold processVariable
    rw [hns]
    simp [h]
  · intro h
    unfold processVariable
    rw [hns]
    simp [h]
  · intro h4 h5
    unfold processVariable
    rw [hns]
    simp [h4, h5]

/-- C3 witness: the 404 world is routed to the post-status body. -/
theorem status_code_handling_witness :
    processVariable w404 cfgBase dsTemp "sgpmetE13.b1" "temp" =
      processVariableAfterStatus w404 cfgBase dsTemp "temp"
        (buildURL "sgpmetE13.b1" "temp" "incorrect,suspect")
        (w404.service (buildURL "sgpmetE13.b1" "temp" "incorrect,suspect")).lines :=
  (status_code_handling w404 cfgBase dsTemp "sgpmetE13.b1" "temp" rfl).2.2
    (by decide) (by decide)

/-- The test built from an aggregated record when registration succeeds. -/
def testOf (v : String) (r : DQRResult) : QCTest :=
  { var_name := v, index := r.index, test_meaning := r.test_meaning,
    test_assessment := r.test_assessment }

/-- A world answering 200 with `lineD1` whose registrations always raise
`IndexError`. -/
def wFail : World :=
  { service := fun _ => { status_code := 200, lines := [lineD1] },
    addTestFails := fun _ _ => true }

/-- The aggregated record `lineD1` produces on `sampleTime`. -/
def resD1 : DQRResult :=
  { index := [1, 2], test_assessment := "incorrect", test_meaning := "D1: bad" }

/-- C8: an `IndexError` raised while registering one aggregated record is
caught locally: that record yields the printed skip notice instead of a
test, the remaining records are still walked, a non-failing record still
registers its test, and the per-variable processing returns success
whatever the failure oracle says — the error never propagates. -/
theorem index_error_caught_locally :
    (∀ (fails : String → String → Bool) (v k : String) (r : DQRResult)
        (rest : List (String × DQRResult)), fails v k = true →
        registerResults fails v ((k, r) :: rest) =
          Event.skipNotice v :: registerResults fails v rest) ∧
    (∀ (fails : String → String → Bool) (v k : String) (r : DQRResult)
        (rest : List (String × DQRResult)), fails v k = false →
        registerResults fails v ((k, r) :: rest) =
          Event.addTest (testOf v r) :: registerResults fails v rest) ∧
    (∀ (w : World) (cfg : Config) (ds : Dataset) (datastream v : String)
        (time : List Int) (var : Variable),
        ds.time? = some time →
        (ds.data_vars.find? fun p => p.1 == v).map Prod.snd = some var →
        (w.service (buildURL datastream v cfg.assessment)).status_code ≠ 400 →
        (w.service (buildURL datastream v cfg.assessment)).status_code ≠ 500 →
        (processVariable w cfg ds datastream v).2 = Except.ok ()) := by
  refine ⟨?_, ?_, ?_⟩
  · intro fails v k r rest h
    simp [registerResults, h]
  · intro fails v k r rest h
    simp [registerResults, testOf, h]
  · intro w cfg ds datastream v time var htime hvar h4 h5
    unfold processVariable
    by_cases hskip : (cfg.skip_location_vars && loc_vars.contains v) = true
    · rw [hskip]
      simp
    · rw [Bool.not_eq_true] at hskip
      rw [hskip]
      simp [h4, h5, processVariableAfterStatus, htime, hvar]

/-- C8 witness: with an always-failing oracle, the one-record dictionary
registers only the skip notice, and the per-variable run still succeeds. -/
theorem index_error_caught_locally_witness :
    registerResults (fun _ _ => true) "temp" [("D1", resD1)] =
      [Event.skipNotice "temp"] ∧
    (processVariable wFail cfgBase dsTemp "sgpmetE13.b1" "temp").2 =
      Except.ok () :=
  ⟨index_error_caught_locally.1 (fun _ _ => true) "temp" "D1" resD1 [] rfl,
   index_error_caught_locally.2.2 wFail cfgBase dsTemp "sgpmetE13.b1" "temp"
     sampleTime sampleVar rfl rfl (by decide) (by decide)⟩

/-- A line-loop step either leaves the trace unchanged or appends a
single link-printing event — never a normalization event. -/
theorem processLine_events (exclude includeIds : Option (List String))
    (time : List Int) (var : Variable) (dl : Bool)
    (acc : List (String × DQRResult) × List Event) (l : DQRLine) :
    (processLine exclude includeIds time var dl acc l).2 = acc.2 ∨
    (processLine exclude includeIds time var dl acc l).2 =
      acc.2 ++ [Event.printLink l.dqr_no l.metric (reportURL l.dqr_no)] := by
  unfold processLine
  by_cases h1 : excludeHit exclude l.dqr_no = true
  · simp [h1]
  by_cases h2 : includeMiss includeIds l.dqr_no = true
  · simp [h1, h2]
  by_cases h3 : (computeTimeInd time l.starttime l.endtime).length = 0
  · simp [h1, h2, h3]
  rcases hlk : lookupResult acc.1 l.dqr_no with _ | r
  · by_cases hdl : dl = true
    · simp [h1, h2, h3, hlk, hdl]
    · simp [h1, h2, h3, hlk, hdl]
  · simp [h1, h2, h3, hlk]

/-- The line loop never emits a normalization event. -/
theorem processLines_no_normalize (exclude includeIds : Option (List String))
    (time : List Int) (var : Variable) (dl : Bool) (u : String) :
    ∀ (dqrs : List DQRLine) (acc : List (String × DQRResult) × List Event),
      Event.normalize u ∉ acc.2 →
      Event.normalize u ∉
        (dqrs.foldl (processLine exclude includeIds time var dl) acc).2 := by
  intro dqrs
  induction dqrs with
  | nil => exact fun acc h => h
  | cons l ls ih =>
    intro acc h
    rw [List.foldl_cons]
    apply ih
    rcases processLine_events exclude includeIds time var dl acc l with he | he
    · rw [he]
      exact h
    · rw [he]
      intro hmem
      rcases List.mem_append.mp hmem with h1 | h1
      · exact h h1
      · simp at h1

/-- The registration loop emits only tests and skip notices — never a
normalization event. -/
theorem registerResults_no_normalize (fails : String → String → Bool)
    (v : String) (results : List (String × DQRResult)) (u : String) :
    Event.normalize u ∉ registerResults fails v results := by
  intro h
  rcases List.mem_map.mp h with ⟨p, _, hp⟩
  by_cases hf : fails v p.1 = true
  · rw [if_pos hf] at hp
    exact Event.noConfusion hp
  · rw [if_neg hf] at hp
    exact Event.noConfusion hp

/-- With normalization disabled, a per-variable iteration emits no
normalization event. -/
theorem processVariable_no_normalize (w : World) (cfg : Config) (ds : Dataset)
    (datastream v u : String) (hn : cfg.normalize_assessment = false) :
    Event.normalize u ∉ (processVariable w cfg ds datastream v).1 := by
  by_cases hskip : (cfg.skip_location_vars && loc_vars.contains v) = true
  · unfold processVariable
    rw [hskip]
    simp
  rw [Bool.not_eq_true] at hskip
  by_cases h4 : (w.service (buildURL datastream v cfg.assessment)).status_code = 400
  · unfold processVariable
    rw [hskip]
    simp [h4]
  by_cases h5 : (w.service (buildURL datastream v cfg.assessment)).status_code = 500
  · unfold processVariable
    rw [hskip]
    simp [h4, h5]
  have hred : processVariable w cfg ds datastream v =
      processVariableAfterStatus w cfg ds v (buildURL datastream v cfg.assessment)
        (w.service (buildURL datastream v cfg.assessment)).lines := by
    unfold processVariable
    rw [hskip]
    simp [h4, h5]
  rw [hred]
  unfold processVariableAfterStatus
  rcases htm : ds.time? with _ | time
  · simp [htm]
  rcases hfv : (ds.data_vars.find? fun p => p.1 == v).map Prod.snd with _ | var
  · simp [htm, hfv]
  simp only [htm, hfv, hn, Bool.false_eq_true, if_false]
  intro hmem
  simp only [List.mem_cons, List.mem_append, List.not_mem_nil, or_false] at hmem
  rcases hmem with h1 | (h2 | h3)
  · exact Event.noConfusion h1
  · exact processLines_no_normalize cfg.exclude cfg.includeIds _ _ cfg.dqr_link u
      _ ([], []) (List.not_mem_nil _) h2
  · exact registerResults_no_normalize w.addTestFails v _ u h3

/-- With normalization disabled, the whole variable loop emits no
normalization event. -/
theorem processVars_no_normalize (w : World) (cfg : Config) (ds : Dataset)
    (datastream u : String) (hn : cfg.normalize_assessment = false) :
    ∀ vs : List String,
      Event.normalize u ∉ (processVars w cfg ds datastream vs).1 := by
  intro vs
  induction vs with
  | nil => simp [processVars]
  | cons v rest ih =>
    simp only [processVars]
    rcases hpv : processVariable w cfg ds datastream v with ⟨evs, r⟩
    have hevs : Event.normalize u ∉ evs := by
      have := processVariable_no_normalize w cfg ds datastream v u hn
      rw [hpv] at this
      exact this
    cases r with
    | error e => exact hevs
    | ok a =>
      cases a
      intro hmem
      rcases List.mem_append.mp hmem with h1 | h2
      · exact hevs h1
      · exact ih h2

/-- C9: under the conditions in which a variable is actually processed,
enabling `normalize_assessment` makes the severity normalization for that
variable the event immediately following its registration block; with it
disabled, no normalization event occurs anywhere in the whole call. -/
theorem normalize_assessment_invocation :
    (∀ (w : World) (cfg : Config) (ds : Dataset) (datastream v : String)
        (time : List Int) (var : Variable),
        (cfg.skip_location_vars && loc_vars.contains v) = false →
        (w.service (buildURL datastream v cfg.assessment)).status_code ≠ 400 →
        (w.service (buildURL datastream v cfg.assessment)).status_code ≠ 500 →
        ds.time? = some time →
        (ds.data_vars.find? fun p => p.1 == v).map Prod.snd = some var →
        cfg.normalize_assessment = true →
        (processVariable w cfg ds datastream v).1 =
          Event.request (buildURL datastream v cfg.assessment) ::
            ((processLines cfg.exclude cfg.includeIds time var cfg.dqr_link
                (w.service (buildURL datastream v cfg.assessment)).lines).2 ++
              registerResults w.addTestFails v
                (processLines cfg.exclude cfg.includeIds time var cfg.dqr_link
                  (w.service (buildURL datastream v cfg.assessment)).lines).1 ++
              [Event.normalize v])) ∧
    (∀ (w : World) (cfg : Config) (ds : Dataset) (u : String),
        cfg.normalize_assessment = false →
        Event.normalize u ∉ (add_dqr_to_qc w cfg ds).1) := by
  constructor
  · intro w cfg ds datastream v time var hns h4 h5 htime hvar hnorm
    unfold processVariable
    rw [hns]
    simp [h4, h5, processVariableAfterStatus, htime, hvar, hnorm]
  · intro w cfg ds u hn
    unfold add_dqr_to_qc
    split
    · simp
    split
    · simp
    intro hmem
    rcases List.mem_append.mp hmem with h1 | h2
    · by_cases hc : cfg.cleanup_qc = true
      · rw [hc] at h1
        simp at h1
      · rw [Bool.not_eq_true] at hc
        rw [hc] at h1
        simp at h1
    · exact processVars_no_normalize w cfg ds _ u hn _ h2

/-- C9 witness: in the baseline run the normalization of `temp` directly
follows its (empty) registration block; conversely, the pct run with
normalization off emits no normalization event. -/
theorem normalize_assessment_invocation_witness :
    (processVariable wOk cfgBase dsTemp "sgpmetE13.b1" "temp").1 =
      Event.request (buildURL "sgpmetE13.b1" "temp" "incorrect,suspect") ::
        ((processLines none none sampleTime sampleVar false []).2 ++
          registerResults wOk.addTestFails "temp"
            (processLines none none sampleTime sampleVar false []).1 ++
          [Event.normalize "temp"]) ∧
    Event.normalize "pct" ∉ (add_dqr_to_qc wPctMiss cfgPct dsPct).1 :=
  ⟨normalize_assessment_invocation.1 wOk cfgBase dsTemp "sgpmetE13.b1" "temp"
      sampleTime sampleVar rfl (by decide) (by decide) rfl rfl rfl,
   normalize_assessment_invocation.2 wPctMiss cfgPct dsPct "pct" rfl⟩

/-- A dataset lacking the `'time'` coordinate but holding `pct`. -/
def dsNoTime : Dataset :=
  { attr_datastream := some "sgpmetE13.b1", attr_underscore_datastream := none,
    time? := none, data_vars := [("pct", pctVar)],
    matched_qc_variables := [] }

/-- Over a dataset without a `'time'` coordinate, the variable loop stops
with the `'time'` lookup error as soon as it reaches a variable that is
not skipped, whatever the service answers (as long as the status checks
pass). -/
theorem processVars_missing_time (w : World) (cfg : Config) (ds : Dataset)
    (datastream : String) (htime : ds.time? = none)
    (hstatus : ∀ url, (w.service url).status_code ≠ 400 ∧
      (w.service url).status_code ≠ 500) :
    ∀ vs : List String,
      (∃ v ∈ vs, (cfg.skip_location_vars && loc_vars.contains v) = false) →
      (processVars w cfg ds datastream vs).2 =
        Except.error (DQRError.keyError "time") := by
  intro vs
  induction vs with
  | nil =>
    rintro ⟨v, hv, _⟩
    exact absurd hv (List.not_mem_nil v)
  | cons v rest ih =>
    rintro ⟨v', hv', hns'⟩
    by_cases hskip : (cfg.skip_location_vars && loc_vars.contains v) = true
    · have hv'rest : v' ∈ rest := by
        rcases List.mem_cons.mp hv' with he | hr
        · exfalso
          rw [← he, hns'] at hskip
          exact Bool.noConfusion hskip
        · exact hr
      have hpv : processVariable w cfg ds datastream v = ([], Except.ok ()) := by
        unfold processVariable
        rw [hskip]
        simp
      simp only [processVars, hpv]
      exact ih ⟨v', hv'rest, hns'⟩
    · rw [Bool.not_eq_true] at hskip
      have hpv : processVariable w cfg ds datastream v =
          ([Event.request (buildURL datastream v cfg.assessment)],
            Except.error (DQRError.keyError "time")) := by
        unfold processVariable
        rw [hskip]
        simp [(hstatus _).1, (hstatus _).2, processVariableAfterStatus, htime]
      simp only [processVars, hpv]

/-- C10: whenever the datastream checks pass and at least one target
variable is not skipped, a dataset lacking the `'time'` coordinate makes
the call abort with the uncaught `'time'` lookup error — for every
service response (empty included) and every variable shape (time
dimension or not), since the coordinate is read before any response line
is parsed. -/
theorem time_read_unconditionally (w : World) (cfg : Config) (ds : Dataset)
    (datastream : String)
    (hds : resolveDatastream ds = Except.ok datastream)
    (hdef : datastream ≠ DEFAULT_DATASTREAM_NAME)
    (htime : ds.time? = none)
    (hstatus : ∀ url, (w.service url).status_code ≠ 400 ∧
      (w.service url).status_code ≠ 500)
    (hvar : ∃ v ∈ effectiveVariables cfg ds,
      (cfg.skip_location_vars && loc_vars.contains v) = false) :
    (add_dqr_to_qc w cfg ds).2 = Except.error (DQRError.keyError "time") := by
  have hp := processVars_missing_time w cfg ds datastream htime hstatus
    (effectiveVariables cfg ds) hvar
  unfold add_dqr_to_qc
  rw [hds]
  simp [if_neg hdef, hp]

/-- C10 witness: the time-free dataset with the time-independent variable
`pct` and an empty 200 response still aborts with the `'time'` error. -/
theorem time_read_unconditionally_witness :
    (add_dqr_to_qc wOk cfgPct dsNoTime).2 =
      Except.error (DQRError.keyError "time") :=
  time_read_unconditionally wOk cfgPct dsNoTime "sgpmetE13.b1" rfl (by decide)
    rfl (fun _ => ⟨by simp [wOk, emptyResponse], by simp [wOk, emptyResponse]⟩)
    ⟨"pct", by decide, rfl⟩

end ActArm
